import Mathlib

/-!
# Verification of the hotel PMS reconciliation code

Shallow embedding of `src/hotel/utils.py` and `src/hotel/pms_systems.py`.
Python dictionaries coming from the external API are embedded as structures
of `Option String` fields (`none` = missing key, matching `dict.get`);
raised Python exceptions are embedded as the `Except` error channel; the
Django object store is embedded as an explicit `Store` value threaded
through every function, so that the absence of `save()` calls in the source
is visible as the store component being returned unchanged.
-/

namespace Hotel

/-- Python exceptions raised by the embedded code: `exn` is
`raise Exception(msg)`, `attributeError` is a Python `AttributeError`
(e.g. an attribute lookup on an object of the wrong type). -/
inductive PyExn
  | exn (msg : String)
  | attributeError (msg : String)
deriving DecidableEq, Repr

/-- Modelled from the spec: the `Language` enum of `hotel.models`
(models.py is not under src/). Only the four members used by
`LANGUAGE_MAPPINGS` in `utils.py` are needed. -/
inductive Language
  | DUTCH
  | GERMAN
  | BRITISH_ENGLISH
  | PORTUGUESE_PORTUGAL
deriving DecidableEq, Repr

/-- Modelled from the spec: the canonical 5-value status enum of
`hotel.models.Stay.Status` (models.py is not under src/): BEFORE, INSTAY,
AFTER, CANCEL, UNKNOWN. -/
inductive Status
  | BEFORE
  | INSTAY
  | AFTER
  | CANCEL
  | UNKNOWN
deriving DecidableEq, Repr

/-- Modelled from the spec: the Django `TextChoices` `.value` string of a
status member. models.py is not under src/, so the concrete strings are
representative placeholders; no claim depends on their exact text, only on
which member a vendor string is mapped to. -/
def Status.value : Status → String
  | .BEFORE => "BEFORE"
  | .INSTAY => "INSTAY"
  | .AFTER => "AFTER"
  | .CANCEL => "CANCEL"
  | .UNKNOWN => "UNKNOWN"

/-- Modelled from the spec: the Django `TextChoices` `.label` string of a
status member; representative placeholder text, see `Status.value`. -/
def Status.label : Status → String
  | .BEFORE => "Before"
  | .INSTAY => "In stay"
  | .AFTER => "After"
  | .CANCEL => "Cancelled"
  | .UNKNOWN => "Unknown"

/-- Modelled from the spec: a `hotel.models.Guest` row. `phone` and `name`
are `Option String` because the source assigns them from `dict.get`, which
may return `None`; `language` is nullable (`LANGUAGE_MAPPINGS.get` miss). -/
structure Guest where
  name : Option String
  phone : Option String
  language : Option Language
deriving DecidableEq, Repr

/-- Modelled from the spec: a `hotel.models.Hotel` row, identified by its
vendor (PMS) hotel id; read-only for this subsystem. -/
structure HotelRow where
  pms_hotel_id : String
deriving DecidableEq, Repr

/-- Modelled from the spec: a `hotel.models.Stay` row. The hotel foreign
key is represented by the referenced hotel's vendor id. `status` holds
what the source assigns: the `(value, label)` pair taken from
`STATUS_MAPPINGS`, or `none` on a lookup miss. `checkin`/`checkout` hold
what the create path of `update_or_create_stay` assigns: the raw vendor
date string from `dict.get` (possibly `none`). -/
structure Stay where
  hotel : Option String
  guest : Option Guest
  pms_reservation_id : Option String
  pms_guest_id : Option String
  status : Option (String × String)
  checkin : Option String
  checkout : Option String
deriving DecidableEq, Repr

/-- Modelled from the spec: the persistent store (§6), with key-value
semantics over Guest (key: phone), Stay (key: reservation id) and Hotel
(lookup by vendor id). -/
structure Store where
  guests : List Guest
  stays : List Stay
  hotels : List HotelRow
deriving DecidableEq, Repr

/-- The empty store. -/
def Store.empty : Store := { guests := [], stays := [], hotels := [] }

/-- Python truthiness of an optional string: `None` and `""` are falsy. -/
def pyFalsy : Option String → Bool
  | none => true
  | some s => s = ""

/-- Python `str()` rendering of an optional string, as used by an f-string:
`None` renders as `"None"`. -/
def pyOptStr : Option String → String
  | none => "None"
  | some s => s

/-- Interface model of the external `phonenumbers` library (an external
dependency, specified only at its boundary). `parse` returns the parsed
number on success and `none` when the library raises
`NumberParseException`; `parse_none` records that parsing the Python value
`None` always raises. `is_valid_number` is the library's validity check on
a parsed number. -/
structure PhoneLib where
  parse : Option String → Option String
  is_valid_number : String → Bool
  parse_none : parse none = none

/-- `utils.LANGUAGE_MAPPINGS`: country code to `Language`, with `dict.get`
semantics (`none` on a missing key). -/
def LANGUAGE_MAPPINGS : String → Option Language := fun c =>
  if c = "NL" then some .DUTCH
  else if c = "DE" then some .GERMAN
  else if c = "GG" then some .BRITISH_ENGLISH
  else if c = "GB" then some .BRITISH_ENGLISH
  else if c = "CA" then some .BRITISH_ENGLISH
  else if c = "BR" then some .PORTUGUESE_PORTUGAL
  else if c = "CN" then some .BRITISH_ENGLISH
  else if c = "AU" then some .BRITISH_ENGLISH
  else none

/-- `utils.STATUS_MAPPINGS`: vendor status string to the
`(Status.value, Status.label)` pair the source stores, with `dict.get`
semantics: `none` on a missing key (the source supplies no default). -/
def STATUS_MAPPINGS : String → Option (String × String) := fun s =>
  if s = "in_house" then some (Status.INSTAY.value, Status.INSTAY.label)
  else if s = "checked_out" then some (Status.AFTER.value, Status.AFTER.label)
  else if s = "cancelled" then some (Status.CANCEL.value, Status.CANCEL.label)
  else if s = "no_show" then some (Status.UNKNOWN.value, Status.UNKNOWN.label)
  else if s = "not_confirmed" then some (Status.UNKNOWN.value, Status.UNKNOWN.label)
  else if s = "booked" then some (Status.BEFORE.value, Status.BEFORE.label)
  else none

/-- `utils.is_valid_phone_number`. The source parses with
`phonenumbers.parse`; on `NumberParseException` it does not return `False`
but raises `Exception(f"Invalid phone number: ...")`. The Python `str`
annotation notwithstanding, the caller passes `guest_details.get("Phone")`,
which may be `None`, hence the `Option String` argument. -/
def is_valid_phone_number (lib : PhoneLib) (phone_number : Option String) :
    Except PyExn Bool :=
  match lib.parse phone_number with
  | some number => .ok (lib.is_valid_number number)
  | none => .error (.exn ("Invalid phone number: " ++ pyOptStr phone_number))

/-- `utils.is_unique_phone_number`:
`not Guest.objects.filter(phone=phone_number).exists()`. -/
def is_unique_phone_number (st : Store) (phone_number : Option String) : Bool :=
  !(st.guests.any fun g => g.phone == phone_number)

/-- `utils.validate_phone_number`: valid and unique; the parse exception
from `is_valid_phone_number` propagates. -/
def validate_phone_number (lib : PhoneLib) (st : Store)
    (phone_number : Option String) : Except PyExn Bool :=
  match is_valid_phone_number lib phone_number with
  | .error e => .error e
  | .ok v =>
    if v && is_unique_phone_number st phone_number then .ok true
    else .ok false

/-- The `guest_details` dictionary returned by the PMS Gateway's
`get_guest_details`, with `dict.get` semantics on the keys the source
reads. -/
structure GuestDetails where
  Name : Option String
  Phone : Option String
  Country : Option String
deriving DecidableEq, Repr

/-- The `reservation_details` dictionary returned by the PMS Gateway's
`get_reservation_details`, with `dict.get` semantics on the keys the
source reads. -/
structure ReservationDetails where
  HotelId : Option String
  ReservationId : Option String
  GuestId : Option String
  Status : Option String
  CheckInDate : Option String
  CheckOutDate : Option String
deriving DecidableEq, Repr

/-- `utils.fetch_or_create_guest`. The store is threaded explicitly and
returned by every branch; note that the source constructs `Guest(...)`
without ever calling `save()`, so no branch writes to the store. The
Python in-place `phones.append` is embedded by returning the updated
list on the creation path. -/
def fetch_or_create_guest (lib : PhoneLib) (guest_details : GuestDetails)
    (phones : List (Option String)) (st : Store) :
    Except PyExn (Guest × List (Option String)) × Store :=
  let phone_number := guest_details.Phone
  let country := guest_details.Country
  match st.guests.find? (fun g => g.phone == phone_number) with
  | some guest => (.ok (guest, phones), st)
  | none =>
    if pyFalsy guest_details.Name then
      (.error (.exn "Please enter a valid name!"), st)
    else
      match validate_phone_number lib st phone_number with
      | .error e => (.error e, st)
      | .ok ok =>
        if !ok then (.error (.exn "Please enter a valid phone number!"), st)
        else if pyFalsy country then
          (.error (.exn "Please enter a valid country!"), st)
        else if phones.contains phone_number then
          (.error (.exn "Same phone number used for multiple guests!"), st)
        else
          let phones1 := phones ++ [phone_number]
          let guest : Guest :=
            { name := guest_details.Name
              phone := phone_number
              language := country.bind LANGUAGE_MAPPINGS }
          (.ok (guest, phones1), st)

/-- `utils.update_or_create_stay`. On the update path the source mutates
the in-memory `stay` object and then evaluates `datetime.strptime`; since
`utils.py` begins with `import datetime` (the module, which has no
`strptime` attribute — the class is `datetime.datetime`), that call raises
`AttributeError` on every input, the mutated object is discarded and the
exception propagates (the only handler is for `Stay.DoesNotExist`). On
the create path the source constructs `Stay(...)` with the raw,
unparsed date strings and never calls `save()`, so no branch writes to
the store. -/
def update_or_create_stay (reservation_details : ReservationDetails)
    (guest : Guest) (st : Store) : Except PyExn Stay × Store :=
  let status := reservation_details.Status
  let reservation_id := reservation_details.ReservationId
  let guest_id := reservation_details.GuestId
  match st.stays.find? (fun s => s.pms_reservation_id == reservation_id) with
  | some _ =>
    (.error (.attributeError "module datetime has no attribute strptime"), st)
  | none =>
    let stay : Stay :=
      { hotel :=
          (st.hotels.find? fun h =>
            (some h.pms_hotel_id : Option String) == reservation_details.HotelId
            ).map (·.pms_hotel_id)
        guest := some guest
        pms_reservation_id := reservation_id
        pms_guest_id := guest_id
        status := status.bind STATUS_MAPPINGS
        checkin := reservation_details.CheckInDate
        checkout := reservation_details.CheckOutDate }
    (.ok stay, st)

/-- One webhook event applied end to end, the way the spec's claims about
idempotence compose the two upserts: `fetch_or_create_guest` followed by
`update_or_create_stay` on the resulting store. -/
def apply_event (lib : PhoneLib) (gd : GuestDetails) (rd : ReservationDetails)
    (phones : List (Option String)) (st : Store) :
    Except PyExn (Guest × Stay × List (Option String)) × Store :=
  match fetch_or_create_guest lib gd phones st with
  | (.ok (g, phones1), st1) =>
    match update_or_create_stay rd g st1 with
    | (.ok s, st2) => (.ok (g, s, phones1), st2)
    | (.error e, st2) => (.error e, st2)
  | (.error e, st1) => (.error e, st1)

/-- `true` when the embedded Python call raised. -/
def isErr {α : Type} : Except PyExn α → Bool
  | .error _ => true
  | .ok _ => false

/-- Spec-side vocabulary: the phone number passes the library's format
validation (it parses and the parsed number is valid). An unparseable
number fails format validation. -/
def phoneFormatOk (lib : PhoneLib) (p : Option String) : Bool :=
  match lib.parse p with
  | some n => lib.is_valid_number n
  | none => false

/-- A Python/JSON value as it reaches `PMS_Mews.clean_webhook_payload`:
the webhook body after JSON deserialization by the web layer. -/
inductive JVal
  | null
  | bool (b : Bool)
  | num (n : Int)
  | str (s : String)
  | list (xs : List JVal)
  | dict (entries : List (String × JVal))

/-- Python `dict.get(key, default)` over an association list (first
binding wins, as in a dict built left to right). -/
def dGetD (entries : List (String × JVal)) (key : String) (dflt : JVal) :
    JVal :=
  match entries.find? (fun kv => kv.1 == key) with
  | some kv => kv.2
  | none => dflt

/-- Python truthiness of a `JVal` (`''`, `None`, `[]` and `` empty dict ``
are falsy). -/
def jTruthy : JVal → Bool
  | .null => false
  | .bool b => b
  | .num n => n ≠ 0
  | .str s => s ≠ ""
  | .list xs => !xs.isEmpty
  | .dict entries => !entries.isEmpty

/-- Python `str()` of a `JVal`, as applied by `clean_webhook_payload` to
the `HotelId` and `IntegrationId` fields; container reprs abbreviated
(no claim depends on them). -/
def jStr : JVal → String
  | .null => "None"
  | .bool b => if b then "True" else "False"
  | .num n => toString n
  | .str s => s
  | .list _ => "[...]"
  | .dict _ => "\x7b...\x7d"

/-- One cleaned event as built by `clean_webhook_payload`:
`\x7b'Name': event_name, 'ReservationId': reservation_id\x7d`, whose
values are whatever `JVal`s `event.get` returned. -/
structure CleanedEvent where
  Name : JVal
  ReservationId : JVal

/-- The cleaned payload dictionary built by `clean_webhook_payload`; on
the success path it always carries exactly these three keys, so it is a
truthy (non-empty) dict. -/
structure CleanedPayload where
  HotelId : String
  IntegrationId : String
  Events : List CleanedEvent

/-- The `for event in events` loop body of `clean_webhook_payload`.
`none` embeds an exception escaping the loop (caught by the method's
catch-all): `event.get` on a non-dict event, or `.get` on a non-dict
`'Value'`, raise `AttributeError`. A dict event whose `Name` or
`Value.ReservationId` is falsy is skipped; kept events stay in payload
order. -/
def cleanEvents : List JVal → Option (List CleanedEvent)
  | [] => some []
  | .dict entries :: rest =>
    let event_name := dGetD entries "Name" (.str "")
    match dGetD entries "Value" (.dict []) with
    | .dict ventries =>
      let reservation_id := dGetD ventries "ReservationId" (.str "")
      match cleanEvents rest with
      | some tail =>
        some (if jTruthy event_name && jTruthy reservation_id then
                { Name := event_name, ReservationId := reservation_id } :: tail
              else tail)
      | none => none
    | _ => none
  | _ :: _ => none

/-- `PMS_Mews.clean_webhook_payload`. The method wraps everything in a
catch-all that returns the empty dict `\x7b\x7d` on any exception
(embedded as `none`); it never raises. A non-dict body fails at
`payload.get` (`AttributeError`); a non-list `'Events'` fails when
iterated or when a member is `.get`ed (empty `str`/`dict` iterate to
nothing and succeed with no events, matching Python iteration). -/
def clean_webhook_payload (payload : JVal) : Option CleanedPayload :=
  match payload with
  | .dict entries =>
    let hotelId := jStr (dGetD entries "HotelId" (.str ""))
    let integrationId := jStr (dGetD entries "IntegrationId" (.str ""))
    match dGetD entries "Events" (.list []) with
    | .list events =>
      match cleanEvents events with
      | some ces =>
        some { HotelId := hotelId, IntegrationId := integrationId,
               Events := ces }
      | none => none
    | .str s => if s = "" then
        some { HotelId := hotelId, IntegrationId := integrationId,
               Events := [] }
      else none
    | .dict ventries => if ventries.isEmpty then
        some { HotelId := hotelId, IntegrationId := integrationId,
               Events := [] }
      else none
    | _ => none
  | _ => none

/-- Django `Stay.objects.update_or_create(hotel_id=..,
pms_reservation_id=.., defaults=\x7bsame two fields\x7d)` as called by
`PMS_Mews.update_database`: if a stay with both key fields exists the
defaults rewrite the same values (no visible change), otherwise a new
stay with only those fields set is appended. Key values arriving as
non-strings are embedded as `none`. -/
def jKey : JVal → Option String
  | .str s => some s
  | _ => none

/-- See `jKey`: the store write performed per event by
`PMS_Mews.update_database`. -/
def stayUpdateOrCreate (hotel_id reservation_id : JVal) (st : Store) :
    Store :=
  let hid := jKey hotel_id
  let rid := jKey reservation_id
  if st.stays.any (fun s => s.hotel == hid && s.pms_reservation_id == rid)
  then st
  else { st with stays := st.stays ++
          [{ hotel := hid, guest := none, pms_reservation_id := rid,
             pms_guest_id := none, status := none, checkin := none,
             checkout := none }] }

/-- The `for event in events` loop of `PMS_Mews.update_database`: a
non-dict event raises at `event.get`; the method's catch-all swallows the
exception, keeping the writes already performed. -/
def updateDatabaseLoop (hotel_id : JVal) : List JVal → Store → Store
  | [], st => st
  | .dict eentries :: rest, st =>
    let reservation_id := dGetD eentries "ReservationId" .null
    updateDatabaseLoop hotel_id rest
      (stayUpdateOrCreate hotel_id reservation_id st)
  | _ :: _, st => st

/-- `PMS_Mews.update_database`. Its `try` wraps the whole body and the
`except` merely logs, so a raised exception leaves the store as it was at
the raise point. When the argument is not a dict — and `handle_webhook`
always passes it the `HotelId` string — `payload.get('HotelId')` raises
`AttributeError` immediately and nothing is written. -/
def update_database (payload : JVal) (st : Store) : Store :=
  match payload with
  | .dict entries =>
    let hotel_id := dGetD entries "HotelId" .null
    match dGetD entries "Events" (.list []) with
    | .list events => updateDatabaseLoop hotel_id events st
    | _ => st
  | _ => st

/-- `PMS_Mews.handle_webhook`. It re-cleans the payload itself; if the
cleaned dict is truthy (success always yields the three-key dict) it
calls `self.update_database(hotel_id)` — passing the `HotelId` *string*,
not the cleaned payload dict — and returns `True`; if cleaning returned
the empty dict it returns `False`. The PMS Gateway is never contacted:
no call to `hotel.external_api` occurs in the method or in
`update_database`. -/
def handle_webhook (webhook_data : JVal) (st : Store) : Bool × Store :=
  match clean_webhook_payload webhook_data with
  | some cleaned => (true, update_database (.str cleaned.HotelId) st)
  | none => (false, st)

/-- A value of the local dictionary built by
`PMS_Mews.get_reservation_details` (the method defined in
`pms_systems.py`, which shadows the imported gateway function of the same
name and reads the local `Stay` table instead). -/
inductive LVal
  | ostr (s : Option String)
  | sstr (s : String)
  | stat (p : Option (String × String))
deriving DecidableEq, Repr

/-- `PMS_Mews.get_reservation_details`: looks the stay up in the *local*
store (`Stay.objects.get`), returns a dict with exactly the keys
`reservation_id`, `guest_name`, `status`, `checkin`, `checkout`; on
`Stay.DoesNotExist` (or any exception) the catch-all returns the empty
dict. No gateway call is made. -/
def mews_get_reservation_details (st : Store) (reservation_id : Option String) :
    List (String × LVal) :=
  match st.stays.find? (fun s => s.pms_reservation_id == reservation_id) with
  | some stay =>
    [("reservation_id", .ostr stay.pms_reservation_id),
     ("guest_name",
       match stay.guest with
       | some g => .ostr g.name
       | none => .sstr "Unknown"),
     ("status", .stat stay.status),
     ("checkin", .ostr stay.checkin),
     ("checkout", .ostr stay.checkout)]
  | none => []

/-- Python `dict.get(key, None)` over the local reservation-details
dict. -/
def lGet (entries : List (String × LVal)) (key : String) : Option LVal :=
  match entries.find? (fun kv => kv.1 == key) with
  | some kv => some kv.2
  | none => none

/-- `PMS_Mews.stay_has_breakfast`: queries its own
`get_reservation_details` (the store-reading method above, not the
gateway) and returns `reservation_details.get('has_breakfast', None)` —
the raw Python value stored under that key, or `None` (here `none`) when
the key is absent. -/
def stay_has_breakfast (st : Store) (stay : Stay) : Option LVal :=
  lGet (mews_get_reservation_details st stay.pms_reservation_id)
    "has_breakfast"

/-! ## Concrete fixtures for evaluating the theorems -/

/-- A concrete instantiation of the `phonenumbers` interface, used only to
evaluate the theorems at concrete inputs: here a number parses when it is
a nonempty string starting with `+`, and a parsed number is valid when it
has at least ten characters. Any instantiation of `PhoneLib` would do. -/
def phoneLibT : PhoneLib where
  parse := fun p =>
    match p with
    | some s =>
      if s.data.head? = some '+' && 1 < s.data.length then some s else none
    | none => none
  is_valid_number := fun s => 10 ≤ s.data.length
  parse_none := rfl

/-- Guest details of the spec's "new reservation" scenario. -/
def gd0 : GuestDetails :=
  { Name := some "A. Jansen", Phone := some "+31612345678",
    Country := some "NL" }

/-- Reservation details of the spec's "new reservation" scenario. -/
def rd0 : ReservationDetails :=
  { HotelId := some "H1", ReservationId := some "R1", GuestId := some "G1",
    Status := some "booked", CheckInDate := some "2024-03-15",
    CheckOutDate := some "2024-03-18" }

/-- The guest the creation path of `fetch_or_create_guest` builds from
`gd0`. -/
def g0 : Guest :=
  { name := some "A. Jansen", phone := some "+31612345678",
    language := some Language.DUTCH }

/-- A stay already stored under reservation id R1, to exercise the update
path of `update_or_create_stay`. -/
def stayR1 : Stay :=
  { hotel := some "H1", guest := none, pms_reservation_id := some "R1",
    pms_guest_id := some "G1",
    status := some (Status.BEFORE.value, Status.BEFORE.label),
    checkin := some "2024-03-15", checkout := some "2024-03-18" }

/-- A store holding only `stayR1`. -/
def storeR1 : Store := { guests := [], stays := [stayR1], hotels := [] }

/-- Guest details with an unparseable phone number. -/
def gdBad : GuestDetails :=
  { Name := some "B. Smith", Phone := some "not-a-number",
    Country := some "NL" }

/-- Guest details with a missing country. -/
def gdNoCountry : GuestDetails :=
  { Name := some "A. Jansen", Phone := some "+31612345678", Country := none }

/-- Guest details with a country outside `LANGUAGE_MAPPINGS`. -/
def gdFR : GuestDetails :=
  { Name := some "A. Jansen", Phone := some "+31612345678",
    Country := some "FR" }

/-- Reservation details with a vendor status outside `STATUS_MAPPINGS`. -/
def rdManual : ReservationDetails :=
  { rd0 with Status := some "frobnicate" }

/-- A well-formed raw webhook body carrying one complete event. -/
def payload0 : JVal :=
  .dict [("HotelId", .str "H1"), ("IntegrationId", .str "I1"),
         ("Events", .list [.dict [("Name", .str "ReservationUpdated"),
           ("Value", .dict [("ReservationId", .str "R1")])]])]

/-- A deserializable webhook body whose Events list contains one non-dict
member next to one complete event. -/
def payloadMixed : JVal :=
  .dict [("HotelId", .str "H1"), ("IntegrationId", .str "I1"),
         ("Events", .list [.str "oops",
           .dict [("Name", .str "ReservationUpdated"),
             ("Value", .dict [("ReservationId", .str "R1")])]])]

/-! ## Theorems for the claims -/

/-- C1: the idempotence claim fails on the code. Applying the webhook
event for phone `+31612345678` / reservation `R1` to the empty store
succeeds (it returns a guest, a stay and the updated batch list), yet
after one — and equally after two — applications the store contains no
Guest with that phone and no Stay with that reservation id at all, not
exactly one of each: neither `fetch_or_create_guest` nor
`update_or_create_stay` ever saves what it builds. -/
theorem C1_apply_event_persists_nothing :
    (∃ g s ph, (apply_event phoneLibT gd0 rd0 [] Store.empty).1 =
      .ok (g, s, ph)) ∧
    (((apply_event phoneLibT gd0 rd0 [] Store.empty).2).guests.filter
      (fun g => g.phone == some "+31612345678")).length = 0 ∧
    (((apply_event phoneLibT gd0 rd0 []
        (apply_event phoneLibT gd0 rd0 [] Store.empty).2).2).guests.filter
      (fun g => g.phone == some "+31612345678")).length = 0 ∧
    (((apply_event phoneLibT gd0 rd0 []
        (apply_event phoneLibT gd0 rd0 [] Store.empty).2).2).stays.filter
      (fun s => s.pms_reservation_id == some "R1")).length = 0 :=
  ⟨⟨_, _, _, rfl⟩, rfl, rfl, rfl⟩

/-- C2: `handle_webhook` on a cleaned-shape payload carrying one complete
event returns `true` although the event is never processed: it hands
`update_database` the `HotelId` *string*, whose `payload.get` raises
`AttributeError` (swallowed by `update_database`'s catch-all), so the
store is returned unchanged and no reservation or guest detail is ever
fetched — `handle_webhook` and `update_database` contain no gateway
call. -/
theorem C2_handle_webhook_true_without_processing :
    handle_webhook payload0 Store.empty = (true, Store.empty) ∧
    (clean_webhook_payload payload0).map (fun cp => cp.Events.length) =
      some 1 :=
  ⟨rfl, rfl⟩

/-- C4: for fully valid guest details the creation path builds the Guest
with the language mapped from the country, records the phone in the batch
list and returns it — but persists nothing: the store component comes
back unchanged (`Guest(...)` is constructed and never saved, despite the
source's own comment "Saving the guest in the DB"). -/
theorem C4_guest_constructed_but_not_persisted :
    fetch_or_create_guest phoneLibT gd0 [] Store.empty =
      (.ok (g0, [some "+31612345678"]), Store.empty) :=
  rfl

/-- C7: the date-parsing claim fails on the code. On the update path
(`R1` already stored) `update_or_create_stay` raises `AttributeError`
for every input — `utils.py` imports the `datetime` module and calls the
nonexistent `datetime.strptime` — while on the create path the check-in
and check-out strings are stored raw, unparsed, with no validation at
all. -/
theorem C7_dates_unparsed_and_update_crashes :
    (update_or_create_stay rd0 g0 storeR1).1 =
      .error (.attributeError "module datetime has no attribute strptime") ∧
    (update_or_create_stay rd0 g0 Store.empty).1 =
      .ok { hotel := none, guest := some g0,
            pms_reservation_id := some "R1", pms_guest_id := some "G1",
            status := some (Status.BEFORE.value, Status.BEFORE.label),
            checkin := some "2024-03-15", checkout := some "2024-03-18" } :=
  ⟨rfl, rfl⟩

/-- C9: `stay_has_breakfast` resolves `self.get_reservation_details` —
the adapter's own store-reading method, not the gateway function of the
same name — and the local dict it builds never carries a
`has_breakfast` key, so the result is the `.get` default `None` for
every store and every stay: no live gateway query ever happens. -/
theorem C9_breakfast_always_none (st : Store) (stay : Stay) :
    stay_has_breakfast st stay = none := by
  unfold stay_has_breakfast mews_get_reservation_details
  cases st.stays.find? (fun s => s.pms_reservation_id == stay.pms_reservation_id) with
  | none => rfl
  | some s => rfl

/-- C5 counterexample: `"frobnicate"` lies outside the vendor status
table and `STATUS_MAPPINGS.get` has no default, so the mapping yields
`none` — and the Stay created from such a reservation carries
`status = none`, an undefined value, not the UNKNOWN pair the claim
requires. -/
theorem C5_counterexample :
    STATUS_MAPPINGS "frobnicate" = none ∧
    (update_or_create_stay rdManual g0 Store.empty).1 =
      .ok { hotel := none, guest := some g0,
            pms_reservation_id := some "R1", pms_guest_id := some "G1",
            status := none,
            checkin := some "2024-03-15", checkout := some "2024-03-18" } ∧
    (none : Option (String × String)) ≠
      some (Status.UNKNOWN.value, Status.UNKNOWN.label) :=
  ⟨rfl, rfl, by decide⟩

/-- C6 counterexample: a guest whose country is missing is rejected with
"Please enter a valid country!", not created with an unset language as
the claim states for the "missing" case. -/
theorem C6_counterexample :
    (fetch_or_create_guest phoneLibT gdNoCountry [] Store.empty).1 =
      .error (.exn "Please enter a valid country!") :=
  rfl

/-- C8 counterexample: a perfectly deserializable body whose Events list
contains one non-dict member makes `clean_webhook_payload` return the
empty dict (embedded `none`) — losing the well-formed sibling event too —
and `handle_webhook` reports plain failure; and on an undeserializable
body the function likewise returns the empty dict normally: no
`PayloadError` (indeed no exception at all) is ever raised — the source
has a catch-all `except` returning `\x7b\x7d`. -/
theorem C8_counterexample :
    clean_webhook_payload payloadMixed = none ∧
    handle_webhook payloadMixed Store.empty = (false, Store.empty) ∧
    clean_webhook_payload (.str "not a dict") = none :=
  ⟨rfl, rfl, rfl⟩

/-- An absent guest (by phone) in the store makes the phone unique there:
`Guest.objects.filter(...).exists()` is false when `Guest.objects.get`
raised `DoesNotExist`. -/
theorem unique_of_find?_none (st : Store) (p : Option String)
    (h : st.guests.find? (fun g => g.phone == p) = none) :
    is_unique_phone_number st p = true := by
  unfold is_unique_phone_number
  cases hb : st.guests.any (fun g => g.phone == p) with
  | false => rfl
  | true =>
    exfalso
    obtain ⟨g, hg, hp⟩ := List.any_eq_true.mp hb
    exact List.find?_eq_none.mp h g hg hp

/-- `validate_phone_number` re-raises the parse failure of
`is_valid_phone_number`. -/
theorem validate_phone_number_err (lib : PhoneLib) (st : Store)
    (p : Option String) (hp : lib.parse p = none) :
    validate_phone_number lib st p =
      .error (.exn ("Invalid phone number: " ++ pyOptStr p)) := by
  unfold validate_phone_number is_valid_phone_number
  rw [hp]

/-- On a parseable phone, `validate_phone_number` returns the conjunction
of library validity and store uniqueness. -/
theorem validate_phone_number_ok (lib : PhoneLib) (st : Store)
    (p : Option String) (n : String) (hp : lib.parse p = some n) :
    validate_phone_number lib st p =
      .ok (lib.is_valid_number n && is_unique_phone_number st p) := by
  unfold validate_phone_number is_valid_phone_number
  rw [hp]
  cases h : lib.is_valid_number n && is_unique_phone_number st p <;> simp [h]

/-- C10: on an input the phonenumbers library cannot parse,
`is_valid_phone_number` raises (it re-raises the caught
`NumberParseException` as a generic `Exception`) rather than returning
`False`; the raise propagates through `validate_phone_number` and aborts
the creation path of `fetch_or_create_guest`; on a parseable input it
returns the boolean verdict of `is_valid_number`. -/
theorem C10_unparseable_phone_raises (lib : PhoneLib) (p : Option String)
    (st : Store) (gd : GuestDetails) (phones : List (Option String)) :
    (lib.parse p = none →
      is_valid_phone_number lib p =
        .error (.exn ("Invalid phone number: " ++ pyOptStr p)) ∧
      validate_phone_number lib st p =
        .error (.exn ("Invalid phone number: " ++ pyOptStr p))) ∧
    (∀ n, lib.parse p = some n →
      is_valid_phone_number lib p = .ok (lib.is_valid_number n)) ∧
    (gd.Phone = p → lib.parse p = none → pyFalsy gd.Name = false →
      st.guests.find? (fun g => g.phone == gd.Phone) = none →
      (fetch_or_create_guest lib gd phones st).1 =
        .error (.exn ("Invalid phone number: " ++ pyOptStr p))) := by
  refine ⟨fun hp => ⟨?_, ?_⟩, fun n hn => ?_, fun hgd hp hname hfind => ?_⟩
  · unfold is_valid_phone_number
    rw [hp]
  · unfold validate_phone_number is_valid_phone_number
    rw [hp]
  · unfold is_valid_phone_number
    rw [hn]
  · unfold fetch_or_create_guest
    dsimp only
    rw [hfind, hgd]
    unfold validate_phone_number is_valid_phone_number
    rw [hp]
    simp [hname]

/-- Witness for C10 at the unparseable phone `"not-a-number"`. -/
theorem C10_witness :
    is_valid_phone_number phoneLibT (some "not-a-number") =
      .error (.exn "Invalid phone number: not-a-number") ∧
    (fetch_or_create_guest phoneLibT gdBad [] Store.empty).1 =
      .error (.exn "Invalid phone number: not-a-number") := by
  have h := C10_unparseable_phone_raises phoneLibT (some "not-a-number")
    Store.empty gdBad []
  exact ⟨(h.1 rfl).1, h.2.2 rfl rfl rfl rfl⟩

/-- C3: for guest details whose phone has no existing Guest in the store,
`fetch_or_create_guest` fails (raises) exactly when the name is falsy, or
the phone fails the library's format validation or already exists in the
store, or the country is falsy, or the phone already appeared earlier in
the batch's phones list; and after a successful first creation, a second
call carrying the same phone number — whatever the rest of its guest
details — fails, and the store it returns is exactly the store before it
(no write of any kind happens). -/
theorem C3_creation_validation (lib : PhoneLib) (gd : GuestDetails)
    (phones : List (Option String)) (st : Store)
    (hnone : st.guests.find? (fun g => g.phone == gd.Phone) = none) :
    (isErr (fetch_or_create_guest lib gd phones st).1 = true ↔
      (pyFalsy gd.Name = true ∨ phoneFormatOk lib gd.Phone = false ∨
       is_unique_phone_number st gd.Phone = false ∨
       pyFalsy gd.Country = true ∨ phones.contains gd.Phone = true)) ∧
    (∀ gd2 g1 phones1,
      (fetch_or_create_guest lib gd phones st).1 = .ok (g1, phones1) →
      gd2.Phone = gd.Phone →
      isErr (fetch_or_create_guest lib gd2 phones1 st).1 = true ∧
      (fetch_or_create_guest lib gd2 phones1 st).2 = st) := by
  have huniq := unique_of_find?_none st gd.Phone hnone
  constructor
  · unfold fetch_or_create_guest
    dsimp only
    rw [hnone]
    cases hname : pyFalsy gd.Name with
    | true => simp [isErr, hname]
    | false =>
      simp only [hname, Bool.false_eq_true, if_false]
      cases hp : lib.parse gd.Phone with
      | none =>
        rw [validate_phone_number_err lib st gd.Phone hp]
        have hfmt : phoneFormatOk lib gd.Phone = false := by
          unfold phoneFormatOk; rw [hp]
        simp [isErr, hfmt]
      | some n =>
        rw [validate_phone_number_ok lib st gd.Phone n hp, huniq]
        have hfmt : phoneFormatOk lib gd.Phone = lib.is_valid_number n := by
          unfold phoneFormatOk; rw [hp]
        cases hv : lib.is_valid_number n with
        | false => simp [isErr, hfmt, hv, huniq, hname]
        | true =>
          simp only [hv, Bool.and_true, Bool.not_true, Bool.false_eq_true,
            if_false]
          cases hc : pyFalsy gd.Country with
          | true => simp [isErr, hfmt, hv, hc, huniq, hname]
          | false =>
            cases hm : phones.contains gd.Phone with
            | true => simp [isErr, hfmt, hv, hc, hm, huniq, hname]
            | false => simp [isErr, hfmt, hv, hc, hm, huniq, hname]
  · intro gd2 g1 phones1 hok hphone
    unfold fetch_or_create_guest at hok
    dsimp only at hok
    rw [hnone] at hok
    cases hname : pyFalsy gd.Name with
    | true => rw [hname] at hok; simp at hok
    | false =>
      rw [hname] at hok
      simp only [Bool.false_eq_true, if_false] at hok
      cases hp : lib.parse gd.Phone with
      | none =>
        rw [validate_phone_number_err lib st gd.Phone hp] at hok
        simp at hok
      | some n =>
        rw [validate_phone_number_ok lib st gd.Phone n hp, huniq] at hok
        cases hv : lib.is_valid_number n with
        | false => rw [hv] at hok; simp at hok
        | true =>
          rw [hv] at hok
          simp only [Bool.and_true, Bool.not_true, Bool.false_eq_true,
            if_false] at hok
          cases hc : pyFalsy gd.Country with
          | true => rw [hc] at hok; simp at hok
          | false =>
            rw [hc] at hok
            simp only [Bool.false_eq_true, if_false] at hok
            cases hm : phones.contains gd.Phone with
            | true => rw [hm] at hok; simp at hok
            | false =>
              rw [hm] at hok
              simp only [Bool.false_eq_true, if_false, Except.ok.injEq,
                Prod.mk.injEq] at hok
              obtain ⟨-, hphones1⟩ := hok
              unfold fetch_or_create_guest
              dsimp only
              rw [hphone, hnone]
              cases hname2 : pyFalsy gd2.Name with
              | true => exact ⟨rfl, rfl⟩
              | false =>
                simp only [hname2, Bool.false_eq_true, if_false]
                rw [validate_phone_number_ok lib st gd.Phone n hp, huniq, hv]
                simp only [Bool.and_true, Bool.not_true, Bool.false_eq_true,
                  if_false]
                have hm2 : phones1.contains gd.Phone = true := by
                  rw [← hphones1]
                  simp
                cases hc2 : pyFalsy gd2.Country with
                | true => exact ⟨rfl, rfl⟩
                | false =>
                  simp only [hc2, Bool.false_eq_true, if_false, hm2, if_true]
                  exact ⟨rfl, trivial⟩

/-- Witness for C3: the spec's duplicate-phone-in-one-batch scenario,
with the second guest details carrying a different name under the same
phone; derived by applying the theorem at the empty store. -/
theorem C3_witness :
    isErr (fetch_or_create_guest phoneLibT
      { Name := some "B. de Vries", Phone := some "+31612345678",
        Country := some "DE" } [some "+31612345678"] Store.empty).1 = true ∧
    (fetch_or_create_guest phoneLibT
      { Name := some "B. de Vries", Phone := some "+31612345678",
        Country := some "DE" } [some "+31612345678"] Store.empty).2 =
      Store.empty := by
  have h := (C3_creation_validation phoneLibT gd0 [] Store.empty rfl).2
    { Name := some "B. de Vries", Phone := some "+31612345678",
      Country := some "DE" } g0 [some "+31612345678"] rfl rfl
  exact h

/-- C5 amended: each of the six vendor strings maps to its documented
canonical status pair — INSTAY, AFTER, CANCEL, UNKNOWN, UNKNOWN, BEFORE
respectively — while every string outside the table maps to `none` (no
status at all), not to UNKNOWN: a Stay recorded from an unmapped vendor
status carries an unset status. -/
theorem C5_amended_status_mapping :
    STATUS_MAPPINGS "in_house" =
      some (Status.INSTAY.value, Status.INSTAY.label) ∧
    STATUS_MAPPINGS "checked_out" =
      some (Status.AFTER.value, Status.AFTER.label) ∧
    STATUS_MAPPINGS "cancelled" =
      some (Status.CANCEL.value, Status.CANCEL.label) ∧
    STATUS_MAPPINGS "no_show" =
      some (Status.UNKNOWN.value, Status.UNKNOWN.label) ∧
    STATUS_MAPPINGS "not_confirmed" =
      some (Status.UNKNOWN.value, Status.UNKNOWN.label) ∧
    STATUS_MAPPINGS "booked" =
      some (Status.BEFORE.value, Status.BEFORE.label) ∧
    ∀ s, ¬(s = "in_house") → ¬(s = "checked_out") → ¬(s = "cancelled") →
      ¬(s = "no_show") → ¬(s = "not_confirmed") → ¬(s = "booked") →
      STATUS_MAPPINGS s = none := by
  refine ⟨rfl, rfl, rfl, rfl, rfl, rfl, fun s h1 h2 h3 h4 h5 h6 => ?_⟩
  unfold STATUS_MAPPINGS
  simp [h1, h2, h3, h4, h5, h6]

/-- Witness for the amended C5 at the unmapped vendor string
`"frobnicate"`. -/
theorem C5_witness : STATUS_MAPPINGS "frobnicate" = none :=
  C5_amended_status_mapping.2.2.2.2.2.2 "frobnicate" (by decide) (by decide)
    (by decide) (by decide) (by decide) (by decide)

/-- C6 amended: a guest whose country is present (non-empty) but not in
the mapping table is created successfully, with `language` unset, rather
than rejected — and the store comes back unchanged (nothing is saved). A
missing or empty country is instead rejected, see the counterexample. -/
theorem C6_amended_unmapped_country_ok (lib : PhoneLib) (gd : GuestDetails)
    (phones : List (Option String)) (st : Store) (c : String)
    (hnone : st.guests.find? (fun g => g.phone == gd.Phone) = none)
    (hname : pyFalsy gd.Name = false)
    (hfmt : phoneFormatOk lib gd.Phone = true)
    (hcountry : gd.Country = some c) (hc : ¬(c = ""))
    (hmap : LANGUAGE_MAPPINGS c = none)
    (hmem : phones.contains gd.Phone = false) :
    fetch_or_create_guest lib gd phones st =
      (.ok ({ name := gd.Name, phone := gd.Phone, language := none },
            phones ++ [gd.Phone]), st) := by
  have huniq := unique_of_find?_none st gd.Phone hnone
  unfold phoneFormatOk at hfmt
  cases hp : lib.parse gd.Phone with
  | none => rw [hp] at hfmt; simp at hfmt
  | some n =>
    rw [hp] at hfmt
    dsimp only at hfmt
    have hcfalsy : pyFalsy gd.Country = false := by
      rw [hcountry]
      simpa [pyFalsy] using hc
    unfold fetch_or_create_guest
    dsimp only
    rw [hnone]
    simp only [hname, Bool.false_eq_true, if_false]
    rw [validate_phone_number_ok lib st gd.Phone n hp, huniq, hfmt]
    simp only [Bool.and_self, Bool.not_true, Bool.false_eq_true, if_false,
      hcfalsy, hmem]
    rw [hcountry]
    simp only [Option.some_bind, hmap]

/-- Witness for the amended C6: country `"FR"` is non-empty and absent
from `LANGUAGE_MAPPINGS`; the guest is created with `language = none`. -/
theorem C6_witness :
    fetch_or_create_guest phoneLibT gdFR [] Store.empty =
      (.ok ({ name := some "A. Jansen", phone := some "+31612345678",
              language := none }, [some "+31612345678"]), Store.empty) :=
  C6_amended_unmapped_country_ok phoneLibT gdFR [] Store.empty "FR" rfl rfl
    rfl rfl (by decide) rfl rfl

/-- An event the cleaning loop can process without raising: a dict whose
`'Value'` entry (defaulting to the empty dict) is itself a dict. Any
other event raises `AttributeError` inside the loop, which the catch-all
of `clean_webhook_payload` converts into the empty-dict result. -/
def eventWF : JVal → Bool
  | .dict entries =>
    match dGetD entries "Value" (.dict []) with
    | .dict _ => true
    | _ => false
  | _ => false

/-- Spec-side description of the cleaning filter (the claim's words):
from each processable event keep the pair of its `Name` and its
`Value.ReservationId` exactly when both are truthy — dropping events
missing either — preserving the payload order. -/
def keptEvents : List JVal → List CleanedEvent
  | [] => []
  | .dict entries :: rest =>
    (match dGetD entries "Value" (.dict []) with
     | .dict ventries =>
       let n := dGetD entries "Name" (.str "")
       let r := dGetD ventries "ReservationId" (.str "")
       if jTruthy n && jTruthy r then [{ Name := n, ReservationId := r }]
       else []
     | _ => []) ++ keptEvents rest
  | _ :: rest => keptEvents rest

/-- On a list of processable events the cleaning loop succeeds and
returns exactly the order-preserving filter `keptEvents`. -/
theorem cleanEvents_eq_keptEvents (events : List JVal)
    (h : events.all eventWF = true) :
    cleanEvents events = some (keptEvents events) := by
  induction events with
  | nil => rfl
  | cons e rest ih =>
    rw [List.all_cons, Bool.and_eq_true] at h
    obtain ⟨he, hrest⟩ := h
    have ihr := ih hrest
    cases e with
    | null => simp [eventWF] at he
    | bool b => simp [eventWF] at he
    | num n => simp [eventWF] at he
    | str s => simp [eventWF] at he
    | list xs => simp [eventWF] at he
    | dict entries =>
      unfold eventWF at he
      dsimp only at he
      cases hv : dGetD entries "Value" (.dict []) with
      | null => rw [hv] at he; simp at he
      | bool b => rw [hv] at he; simp at he
      | num n => rw [hv] at he; simp at he
      | str s => rw [hv] at he; simp at he
      | list xs => rw [hv] at he; simp at he
      | dict ventries =>
        unfold cleanEvents keptEvents
        rw [hv, ihr]
        dsimp only
        cases hcond : jTruthy (dGetD entries "Name" (.str "")) &&
            jTruthy (dGetD ventries "ReservationId" (.str "")) with
        | true => simp [hcond]
        | false => simp [hcond]

/-- C8 amended: `clean_webhook_payload` keeps, in payload order, exactly
the processable events with a truthy name and reservation id (dropping
incomplete ones), and when the body cannot be handled — here a body that
is not a dict at all — it returns the empty payload from its catch-all
handler rather than raising any `PayloadError`; it performs no store
access of any kind (it takes and returns none). -/
theorem C8_amended_clean_filters (entries : List (String × JVal))
    (events : List JVal) (b : String)
    (hev : dGetD entries "Events" (.list []) = .list events)
    (hwf : events.all eventWF = true) :
    clean_webhook_payload (.dict entries) =
      some { HotelId := jStr (dGetD entries "HotelId" (.str "")),
             IntegrationId := jStr (dGetD entries "IntegrationId" (.str "")),
             Events := keptEvents events } ∧
    clean_webhook_payload (.str b) = none := by
  constructor
  · unfold clean_webhook_payload
    dsimp only
    rw [hev]
    dsimp only
    rw [cleanEvents_eq_keptEvents events hwf]
  · rfl

/-- Witness for the amended C8: a payload with one complete event, one
event missing its name and one missing its reservation id keeps exactly
the complete event; a non-dict body yields the empty payload. -/
theorem C8_witness :
    clean_webhook_payload (.dict
      [("HotelId", .str "H1"), ("IntegrationId", .str "I1"),
       ("Events", .list
         [.dict [("Name", .str "ReservationUpdated"),
                 ("Value", .dict [("ReservationId", .str "R1")])],
          .dict [("Value", .dict [("ReservationId", .str "R2")])],
          .dict [("Name", .str "ReservationDeleted"),
                 ("Value", .dict [])]])]) =
      some { HotelId := "H1", IntegrationId := "I1",
             Events := [{ Name := .str "ReservationUpdated",
                          ReservationId := .str "R1" }] } ∧
    clean_webhook_payload (.str "garbage") = none :=
  C8_amended_clean_filters
    [("HotelId", .str "H1"), ("IntegrationId", .str "I1"),
     ("Events", .list
       [.dict [("Name", .str "ReservationUpdated"),
               ("Value", .dict [("ReservationId", .str "R1")])],
        .dict [("Value", .dict [("ReservationId", .str "R2")])],
        .dict [("Name", .str "ReservationDeleted"),
               ("Value", .dict [])]])]
    [.dict [("Name", .str "ReservationUpdated"),
            ("Value", .dict [("ReservationId", .str "R1")])],
     .dict [("Value", .dict [("ReservationId", .str "R2")])],
     .dict [("Name", .str "ReservationDeleted"), ("Value", .dict [])]]
    "garbage" rfl rfl

end Hotel
